import Mathlib

/-!
Verification development for the flytesnacks cookbook examples:
the map-task workflow (`cookbook/core/control_flow/map_task.py`) and the
Feast feature-store type transformer
(`cookbook/case_studies/feature_engineering/feast_integration/feast_type_transformers.py`).

Python code is shallowly embedded: pure task bodies become Lean functions,
Python exceptions become `Except` errors, protobuf `Struct` values become a
JSON-like inductive type, and the straight-line I/O sequences of the
feature-store methods become explicit step lists run against a failure oracle.
-/

namespace Flytesnacks

/-! ### Map task embedding (`cookbook/core/control_flow/map_task.py`) -/

/-- `a_mappable_task(a: int) -> str`: returns `str(a + 2)`. -/
def a_mappable_task (a : Int) : String := toString (a + 2)

/-- `coalesce(b: List[str]) -> str`: returns `"".join(b)`. -/
def coalesce (b : List String) : String := String.join b

/-- A `FlyteFile` value, identified by its path. -/
structure FlyteFile where
  path : String
deriving DecidableEq, Repr

/-- `print_and_return_last_file(task_params: Dict[str, FlyteFile]) -> FlyteFile`:
`ff = None`, then the loop over `task_params.items()` reassigns `ff = f` for each
entry (Python dicts iterate in insertion order, modelled by the list order), and
the task returns `ff` — which is still `None` for an empty dict.  The printing
and file reads inside the loop do not affect the returned value. -/
def print_and_return_last_file (task_params : List (String × FlyteFile)) : Option FlyteFile :=
  task_params.foldl (fun _ kv => some kv.2) none

/-- Modelled from the spec: the MapExecutor (`flytekit.map_task`, whose executor
is library code outside this repository; only the calling workflows
`my_map_workflow` and `map_wf` are in the source).  One completed invocation:
the result of running the unit of work on the input at one index, tagged with
that index.  `order` is the completion order of the invocations. -/
def completionResults {α β : Type} (op : α → β) (xs : List α)
    (order : List (Fin xs.length)) : List (Fin xs.length × β) :=
  order.map (fun i => (i, op (xs.get i)))

/-- First result recorded for index `i` among the completed invocations. -/
def lookupIndex {β : Type} {n : Nat} (i : Fin n) : List (Fin n × β) → Option β
  | [] => none
  | (j, b) :: rest => if i = j then some b else lookupIndex i rest

/-- Collect, for each index in `idxs` in order, the result recorded for it;
`none` if some index has no recorded result. -/
def collectByIndex {β : Type} {n : Nat} (results : List (Fin n × β)) :
    List (Fin n) → Option (List β)
  | [] => some []
  | i :: rest =>
    match lookupIndex i results, collectByIndex results rest with
    | some b, some l => some (b :: l)
    | _, _ => none

/-- Modelled from the spec: the output collection is assembled by original
input index (positions `0, …, n-1`), regardless of completion order. -/
def assembleOutput {β : Type} {n : Nat} (results : List (Fin n × β)) : Option (List β) :=
  collectByIndex results (List.finRange n)

/-- Modelled from the spec: `map_task(op)(xs)` where the `n` invocations
complete in the order given by `order`; the output collection is assembled by
input index from the tagged results. -/
def mapExecutor {α β : Type} (op : α → β) (xs : List α)
    (order : List (Fin xs.length)) : Option (List β) :=
  assembleOutput (completionResults op xs order)

/-- `my_map_workflow(a: List[int]) -> str`: maps `a_mappable_task` over `a`
(result assembled in input order) and coalesces the mapped output. -/
def my_map_workflow (a : List Int) : String := coalesce (a.map a_mappable_task)

/-! ### Feast type transformer embedding
(`feast_integration/feast_type_transformers.py`) -/

/-- A protobuf `Struct` value (`google.protobuf.struct_pb2.Value`): one of
null, bool, number, string, nested struct (string-keyed mapping, modelled as
an association list; real `Struct` keys are unique) or list.  The same type
also models the plain Python values produced by `MessageToDict` and
`dataclasses_json.to_dict`, which are shape-for-shape identical. -/
inductive PValue where
  | nullV : PValue
  | boolV : Bool → PValue
  | numV : Int → PValue
  | strV : String → PValue
  | structV : List (String × PValue) → PValue
  | listV : List PValue → PValue
deriving Repr

/-- Python exceptions raised by the transformer code paths. -/
inductive PyError where
  | assertionError (msg : String)
  | valueError (msg : String)
  | typeError (msg : String)
  | attributeError (msg : String)
deriving DecidableEq, Repr

/-- `FeatureStoreConfig` dataclass: `registry_path`, `project`, `s3_bucket`,
and `online_store_path` with default `"online.db"`.  The Python dataclass
declares `str` fields but `__init__` performs no runtime type check, so the
fields hold arbitrary Python values, modelled as `PValue`. -/
structure FeatureStoreConfig where
  registry_path : PValue
  project : PValue
  s3_bucket : PValue
  online_store_path : PValue
deriving Repr

/-- `FeatureStore` dataclass: wraps a `FeatureStoreConfig` in field `config`. -/
structure FeatureStore where
  config : FeatureStoreConfig
deriving Repr

/-- `dataclasses_json` `to_dict` of `FeatureStoreConfig`: fields in
declaration order under their declared names. -/
def FeatureStoreConfig.to_dict (c : FeatureStoreConfig) : List (String × PValue) :=
  [("registry_path", c.registry_path), ("project", c.project),
   ("s3_bucket", c.s3_bucket), ("online_store_path", c.online_store_path)]

/-- `dataclasses_json` `to_dict` of `FeatureStore`: the nested config dict
under key `"config"`. -/
def FeatureStore.to_dict (fs : FeatureStore) : List (String × PValue) :=
  [("config", PValue.structV fs.config.to_dict)]

/-- `flytekit.models.literals.Scalar`: only the `generic` (protobuf `Struct`)
field is used by this transformer; `None` is `none`. -/
structure Scalar where
  generic : Option (List (String × PValue))
deriving Repr

/-- `flytekit.models.literals.Literal`: only the `scalar` field is used. -/
structure Literal where
  scalar : Option Scalar
deriving Repr

/-- A dynamically-typed Python value arriving at `to_literal`: either a
`FeatureStore` instance or some other value (carrying its `str()` rendering,
used in the error message). -/
inductive PyVal where
  | featureStore : FeatureStore → PyVal
  | otherVal : String → PyVal
deriving Repr

/-- Whether `isinstance(python_val, FeatureStore)` holds. -/
def PyVal.isFeatureStoreInstance : PyVal → Bool
  | .featureStore _ => true
  | .otherVal _ => false

/-- `FeatureStoreTransformer.to_literal`: raises `AssertionError` unless the
value is a `FeatureStore` instance; otherwise builds a `Struct` from
`python_val.to_dict()` and wraps it as `Literal(Scalar(generic=s))`. -/
def to_literal (python_val : PyVal) : Except PyError Literal :=
  match python_val with
  | .featureStore fs => .ok ⟨some ⟨some fs.to_dict⟩⟩
  | .otherVal d =>
      .error (.assertionError ("Value cannot be converted to a feature store: " ++ d))

/-- `MessageToDict(lv.scalar.generic["config"])`: the `Struct` item access
unwraps the `Value`; a nested struct converts to its dict.  A non-message
scalar (`None`/bool/number/string) has no `DESCRIPTOR`, so `MessageToDict`
raises `AttributeError`; a `ListValue` converts to a Python list, which then
fails as a `**`-mapping with `TypeError`. -/
def messageToDict : PValue → Except PyError (List (String × PValue))
  | .structV fields => .ok fields
  | .listV _ => .error (.typeError "argument after ** must be a mapping, not list")
  | .nullV => .error (.attributeError "NoneType object has no attribute DESCRIPTOR")
  | .boolV _ => .error (.attributeError "bool object has no attribute DESCRIPTOR")
  | .numV _ => .error (.attributeError "float object has no attribute DESCRIPTOR")
  | .strV _ => .error (.attributeError "str object has no attribute DESCRIPTOR")

/-- The keyword parameters accepted by `FeatureStoreConfig.__init__`. -/
def allowedKeys : List String :=
  ["registry_path", "project", "s3_bucket", "online_store_path"]

/-- Error message of the `ValueError` raised by `to_python_value` on a
malformed literal. -/
def malformedMessage : String :=
  "FeatureStore requires a valid FeatureStoreConfig to load python value"

/-- Error message of the `TypeError` raised by `FeatureStoreConfig(**kwargs)`
when a required field is absent. -/
def missingArgsMessage : String :=
  "__init__() missing required positional arguments"

/-- `FeatureStoreConfig(**conf_dict)`: Python keyword-argument semantics —
`TypeError` on an unexpected keyword or a missing required parameter
(`registry_path`, `project`, `s3_bucket`); `online_store_path` defaults to
`"online.db"`.  Values are not type-checked. -/
def featureStoreConfigOfKwargs (kw : List (String × PValue)) :
    Except PyError FeatureStoreConfig :=
  match kw.find? (fun kv => !(allowedKeys.contains kv.1)) with
  | some kv =>
      .error (.typeError ("__init__() got an unexpected keyword argument " ++ kv.1))
  | none =>
    match kw.lookup "registry_path", kw.lookup "project", kw.lookup "s3_bucket" with
    | some rp, some p, some b =>
        .ok ⟨rp, p, b, (kw.lookup "online_store_path").getD (.strV "online.db")⟩
    | _, _, _ => .error (.typeError missingArgsMessage)

/-- `FeatureStoreTransformer.to_python_value`: raises `ValueError` unless
`lv and lv.scalar and lv.scalar.generic and "config" in lv.scalar.generic`
(an empty `Struct` has `len` 0 and is falsy); then
`FeatureStoreConfig(**MessageToDict(lv.scalar.generic["config"]))` wrapped in
a `FeatureStore`. -/
def to_python_value (olv : Option Literal) : Except PyError FeatureStore :=
  match olv with
  | none => .error (.valueError malformedMessage)
  | some lv =>
    match lv.scalar with
    | none => .error (.valueError malformedMessage)
    | some sc =>
      match sc.generic with
      | none => .error (.valueError malformedMessage)
      | some g =>
        if g.isEmpty then .error (.valueError malformedMessage)
        else
          match g.lookup "config" with
          | none => .error (.valueError malformedMessage)
          | some v => do
            let conf_dict ← messageToDict v
            let c ← featureStoreConfigOfKwargs conf_dict
            pure ⟨c⟩

/-- Whether an encode outcome is the transformer's `AssertionError`. -/
def isAssertionFailure : Except PyError Literal → Bool
  | .error (.assertionError _) => true
  | _ => false

/-- The `"config"` mapping of the literal produced by `to_literal`, when the
encode succeeded and that field is a nested struct. -/
def encodedConfigFields (v : PyVal) : Option (List (String × PValue)) :=
  match to_literal v with
  | .error _ => none
  | .ok l =>
    match l.scalar with
    | none => none
    | some sc =>
      match sc.generic with
      | none => none
      | some g =>
        match g.lookup "config" with
        | some (.structV fields) => some fields
        | _ => none

/-! ### Type codec registry
(`flytekit.core.type_engine.TypeEngine`; only the registration call
`TypeEngine.register(FeatureStoreTransformer())` is in the source) -/

/-- Modelled from the spec: a codec, identified by the type identifier it
declares (the `TypeEngine.register` body is flytekit library code outside
this repository). -/
structure Codec where
  type_id : String
  codec_name : String
deriving DecidableEq, Repr

/-- Modelled from the spec: registry misuse errors, fatal at startup. -/
inductive RegistryError where
  | duplicateTypeError
  | unknownTypeError
deriving DecidableEq, Repr

/-- Modelled from the spec: the process-wide mapping from type identifier to
codec. -/
structure Registry where
  entries : List (String × Codec)
deriving DecidableEq, Repr

/-- Modelled from the spec: `register(codec)` adds the codec keyed by the
type it declares and fails with `DuplicateTypeError` if that identifier is
already registered. -/
def Registry.register (r : Registry) (c : Codec) : Except RegistryError Registry :=
  if (r.entries.lookup c.type_id).isSome then .error .duplicateTypeError
  else .ok ⟨(c.type_id, c) :: r.entries⟩

/-- Modelled from the spec: `lookup(type_id)` fails with `UnknownTypeError`
if no codec is registered under the identifier. -/
def Registry.lookupCodec (r : Registry) (type_id : String) : Except RegistryError Codec :=
  match r.entries.lookup type_id with
  | some c => .ok c
  | none => .error .unknownTypeError

/-! ### Feature-store operation step sequences
(`FeatureStore.apply` / `materialize` / `get_online_features`) -/

/-- One observable step of a feature-store operation: an object-store
transfer (`file_access.download` / `file_access.upload`) or a call into the
Feast engine. -/
inductive Step where
  | download (remote localPath : String)
  | upload (localPath remote : String)
  | feastApply
  | feastMaterialize
  | feastGetOnlineFeatures
deriving DecidableEq, Repr

/-- Whether a step is an object-store transfer (the steps that can raise
`TransferError`). -/
def Step.isTransfer : Step → Bool
  | .download _ _ => true
  | .upload _ _ => true
  | _ => false

/-- `f"s3://{s3_bucket}/{online_store_path}"` as written in the source. -/
def remoteUri (s3_bucket online_store_path : String) : String :=
  "s3://" ++ s3_bucket ++ "/" ++ online_store_path

/-- Straight-line body of `FeatureStore.materialize`: download the online
store, call `fs.materialize`, upload the online store. -/
def materializeSteps (s3_bucket online_store_path : String) : List Step :=
  [.download (remoteUri s3_bucket online_store_path) online_store_path,
   .feastMaterialize,
   .upload online_store_path (remoteUri s3_bucket online_store_path)]

/-- Straight-line body of `FeatureStore.apply`: call `fs.apply`, then upload
the initialized online store. -/
def applySteps (s3_bucket online_store_path : String) : List Step :=
  [.feastApply,
   .upload online_store_path (remoteUri s3_bucket online_store_path)]

/-- Straight-line body of `FeatureStore.get_online_features`: download the
online store, then call `fs.get_online_features`. -/
def getOnlineFeaturesSteps (s3_bucket online_store_path : String) : List Step :=
  [.download (remoteUri s3_bucket online_store_path) online_store_path,
   .feastGetOnlineFeatures]

/-- Run a straight-line step sequence against a failure oracle (`fails s`
means step `s` raises, e.g. a `TransferError` on a transfer step).  Python
exception semantics: a raising statement terminates the body, so the result
is the list of steps completed before the failure, paired with `true` when
the whole body ran (and `false` when the error propagated to the caller). -/
def runSteps (fails : Step → Bool) : List Step → List Step × Bool
  | [] => ([], true)
  | s :: rest =>
    if fails s then ([], false)
    else
      let out := runSteps fails rest
      (s :: out.1, out.2)

/-! ### Helper lemmas -/

theorem lookupIndex_completionResults {α β : Type} (op : α → β) (xs : List α)
    (order : List (Fin xs.length)) (i : Fin xs.length) (h : i ∈ order) :
    lookupIndex i (completionResults op xs order) = some (op (xs.get i)) := by
  induction order with
  | nil => cases h
  | cons j rest ih =>
    rcases List.mem_cons.mp h with hij | hmem
    · subst hij
      simp [completionResults, lookupIndex]
    · by_cases hij : i = j
      · subst hij
        simp [completionResults, lookupIndex]
      · simpa [completionResults, lookupIndex, hij] using ih hmem

theorem collectByIndex_completionResults {α β : Type} (op : α → β) (xs : List α)
    (order : List (Fin xs.length)) (idxs : List (Fin xs.length))
    (h : ∀ i ∈ idxs, i ∈ order) :
    collectByIndex (completionResults op xs order) idxs
      = some (idxs.map (fun i => op (xs.get i))) := by
  induction idxs with
  | nil => rfl
  | cons i rest ih =>
    have h1 : i ∈ order := h i (List.mem_cons_self i rest)
    have h2 : ∀ j ∈ rest, j ∈ order := fun j hj => h j (List.mem_cons_of_mem _ hj)
    simp [collectByIndex, lookupIndex_completionResults op xs order i h1, ih h2]

theorem foldl_keep_last (l : List (String × FlyteFile)) (a : Option FlyteFile) :
    l.foldl (fun _ kv => some kv.2) a = (l.getLast?.map Prod.snd).or a := by
  induction l generalizing a with
  | nil => rfl
  | cons x rest ih =>
    cases rest with
    | nil => simp [List.foldl_cons]
    | cons y rrest =>
      rw [List.foldl_cons, ih (some x.2), List.getLast?_cons_cons]
      cases hl : (y :: rrest).getLast? with
      | none => simp at hl
      | some kv => rfl

/-! ### Claim theorems -/

/-- C2: for every ordered input collection and unit-of-work `op`, the map
operation produces an ordered output collection of the same length in which
`output[i] = op(input[i])` for every index, regardless of the order in which
the individual invocations complete. -/
theorem mapExecutor_ordered_output {α β : Type} (op : α → β) (xs : List α)
    (order : List (Fin xs.length)) (hall : ∀ i : Fin xs.length, i ∈ order) :
    mapExecutor op xs order = some (xs.map op) ∧
    (xs.map op).length = xs.length ∧
    ∀ (i : Fin xs.length) (h : i.val < (xs.map op).length),
      (xs.map op).get ⟨i.val, h⟩ = op (xs.get i) := by
  refine ⟨?_, by simp, ?_⟩
  · unfold mapExecutor assembleOutput
    rw [collectByIndex_completionResults op xs order (List.finRange xs.length)
      (fun i _ => hall i)]
    have hmm : (List.finRange xs.length).map (fun i => op (xs.get i))
        = ((List.finRange xs.length).map xs.get).map op := by
      rw [List.map_map]
      rfl
    rw [hmm, List.finRange_map_get]
  · intro i h
    simp [List.get_eq_getElem, List.getElem_map]

/-- Witness for C2 at a concrete input: three items completing in the order
2, 0, 1 still assemble to the in-order mapped output. -/
theorem mapExecutor_ordered_output_witness :
    mapExecutor a_mappable_task [(1 : Int), 2, 3]
        [⟨2, by decide⟩, ⟨0, by decide⟩, ⟨1, by decide⟩]
      = some ([(1 : Int), 2, 3].map a_mappable_task) :=
  (mapExecutor_ordered_output a_mappable_task [(1 : Int), 2, 3]
    [⟨2, by decide⟩, ⟨0, by decide⟩, ⟨1, by decide⟩] (by decide)).1

/-- C3: `coalesce` folds the mapped output strictly left to right — it is the
left-to-right concatenation of the list's elements, and on `["a","b","c"]` it
yields `"abc"`. -/
theorem coalesce_left_to_right :
    (∀ b : List String, coalesce b = b.foldl (fun acc s => acc ++ s) "") ∧
    coalesce ["a", "b", "c"] = "abc" :=
  ⟨fun _ => rfl, rfl⟩

/-- C10: `print_and_return_last_file` returns `None` on the empty dictionary
despite its declared `FlyteFile` return type, and on a non-empty dictionary
returns the file associated with the last key in iteration order. -/
theorem print_and_return_last_file_spec :
    print_and_return_last_file [] = none ∧
    ∀ (l : List (String × FlyteFile)) (h : l ≠ []),
      print_and_return_last_file l = some (l.getLast h).2 := by
  refine ⟨rfl, fun l h => ?_⟩
  rw [print_and_return_last_file, foldl_keep_last, List.getLast?_eq_getLast l h]
  rfl

/-- Witness for C10 at a concrete input: the file of the last key is
returned. -/
theorem print_and_return_last_file_spec_witness :
    print_and_return_last_file [("a", ⟨"/tmp/a"⟩), ("b", ⟨"/tmp/b"⟩)]
      = some ⟨"/tmp/b"⟩ := by
  have h := print_and_return_last_file_spec.2
    [("a", ⟨"/tmp/a"⟩), ("b", ⟨"/tmp/b"⟩)] (by simp)
  exact h.trans rfl

/-- A sample `FeatureStore` value with string-valued config fields. -/
def fsExample : FeatureStore :=
  ⟨⟨.strV "registry.db", .strV "flyte_feast", .strV "my-s3-bucket",
    .strV "online.db"⟩⟩

/-- C1: decoding the literal produced by encoding a `FeatureStore` value
yields a value equal to the original —
`to_python_value(ctx, to_literal(ctx, c, T, L), T) == c`, with field names and
nesting reconstructed exactly as encoded. -/
theorem to_python_value_roundtrip (fs : FeatureStore) (l : Literal)
    (h : to_literal (.featureStore fs) = .ok l) :
    to_python_value (some l) = .ok fs := by
  have hl : Literal.mk (some ⟨some fs.to_dict⟩) = l := by
    injection h
  subst hl
  rfl

/-- Witness for C1: a concrete config round-trips. -/
theorem to_python_value_roundtrip_witness :
    to_python_value (some ⟨some ⟨some (FeatureStore.to_dict fsExample)⟩⟩)
      = .ok fsExample :=
  to_python_value_roundtrip fsExample ⟨some ⟨some (FeatureStore.to_dict fsExample)⟩⟩ rfl

/-- C4 counterexample: the encoded record of a concrete `FeatureStore` has no
`"storage_bucket"` key in its `"config"` mapping — the bucket value sits under
the key `"s3_bucket"` instead, so the claimed wire shape is wrong about the
key name. -/
theorem encoded_bucket_key_counterexample :
    (encodedConfigFields (.featureStore fsExample)).bind
        (fun fields => fields.lookup "storage_bucket") = none ∧
    (encodedConfigFields (.featureStore fsExample)).bind
        (fun fields => fields.lookup "s3_bucket") = some (.strV "my-s3-bucket") :=
  ⟨rfl, rfl⟩

/-- C4 (amended): for every `FeatureStore` with string-valued config fields,
the encoded literal has exactly the wire shape
`{"config": {"registry_path": string, "project": string, "s3_bucket": string,
"online_store_path": string}}` — the bucket field is keyed `"s3_bucket"`. -/
theorem encoded_wire_shape (rp p b o : String) :
    to_literal (.featureStore ⟨⟨.strV rp, .strV p, .strV b, .strV o⟩⟩)
      = .ok ⟨some ⟨some [("config", .structV
          [("registry_path", .strV rp), ("project", .strV p),
           ("s3_bucket", .strV b), ("online_store_path", .strV o)])]⟩⟩ := rfl

/-- C5: decoding a record whose `"config"` mapping carries the three required
fields but omits the optional `online_store_path` succeeds, and the resulting
config has `online_store_path == "online.db"` (the dataclass default). -/
theorem decode_applies_default_online_store_path (g : List (String × PValue))
    (rp p b : PValue)
    (h : g.lookup "config" = some (.structV
      [("registry_path", rp), ("project", p), ("s3_bucket", b)])) :
    to_python_value (some ⟨some ⟨some g⟩⟩) = .ok ⟨⟨rp, p, b, .strV "online.db"⟩⟩ := by
  cases g with
  | nil => simp [List.lookup] at h
  | cons kv rest =>
    simp only [to_python_value, List.isEmpty_cons, Bool.false_eq_true, if_false, h]
    rfl

/-- Witness for C5: a concrete three-field record decodes with the default. -/
theorem decode_applies_default_online_store_path_witness :
    to_python_value (some ⟨some ⟨some [("config", PValue.structV
        [("registry_path", PValue.strV "registry.db"),
         ("project", PValue.strV "flyte_feast"),
         ("s3_bucket", PValue.strV "my-s3-bucket")])]⟩⟩)
      = .ok ⟨⟨.strV "registry.db", .strV "flyte_feast", .strV "my-s3-bucket",
              .strV "online.db"⟩⟩ :=
  decode_applies_default_online_store_path _ _ _ _ rfl

/-- C6 counterexample: a record whose `"config"` field is present but cannot
be parsed into the config fields (here the empty mapping, missing all three
required fields) makes decode fail with a `TypeError` from
`FeatureStoreConfig(**conf_dict)`, which is a different outcome from the
`ValueError` that plays the role of `MalformedRecordError` — contradicting
"with no other outcome". -/
theorem decode_unparseable_config_counterexample :
    to_python_value (some ⟨some ⟨some [("config", PValue.structV [])]⟩⟩)
      = .error (.typeError missingArgsMessage) ∧
    PyError.typeError missingArgsMessage ≠ PyError.valueError malformedMessage :=
  ⟨rfl, by decide⟩

/-- C6 (amended): decode fails with the boundary `ValueError` (the
`MalformedRecordError` of the spec) exactly for the shape failures it guards —
missing literal, missing scalar, missing generic struct, empty struct, or no
`"config"` key; when a `"config"` struct is present, the outcome is that of
`FeatureStoreConfig(**conf_dict)` (success on well-formed fields, `TypeError`
— not the boundary `ValueError` — on unparseable ones) wrapped in a
`FeatureStore`. -/
theorem decode_error_discrimination :
    (to_python_value none = .error (.valueError malformedMessage)) ∧
    (to_python_value (some ⟨none⟩) = .error (.valueError malformedMessage)) ∧
    (to_python_value (some ⟨some ⟨none⟩⟩) = .error (.valueError malformedMessage)) ∧
    (to_python_value (some ⟨some ⟨some []⟩⟩) = .error (.valueError malformedMessage)) ∧
    (∀ g : List (String × PValue), g.lookup "config" = none →
      to_python_value (some ⟨some ⟨some g⟩⟩) = .error (.valueError malformedMessage)) ∧
    (∀ g fields : List (String × PValue),
      g.lookup "config" = some (.structV fields) →
      to_python_value (some ⟨some ⟨some g⟩⟩)
        = (featureStoreConfigOfKwargs fields).map (fun c => FeatureStore.mk c)) := by
  refine ⟨rfl, rfl, rfl, rfl, fun g h => ?_, fun g fields h => ?_⟩
  · cases g with
    | nil => rfl
    | cons kv rest =>
      simp only [to_python_value, List.isEmpty_cons, Bool.false_eq_true, if_false, h]
  · cases g with
    | nil => simp [List.lookup] at h
    | cons kv rest =>
      simp only [to_python_value, List.isEmpty_cons, Bool.false_eq_true, if_false, h]
      cases hk : featureStoreConfigOfKwargs fields with
      | error e =>
          simp only [bind, Except.bind, messageToDict]
          rw [hk]
          rfl
      | ok c =>
          simp only [bind, Except.bind, messageToDict]
          rw [hk]
          rfl

/-- Witness for C6 (amended): a config-less record gives the boundary
`ValueError`; a record with an unknown config key gives a `TypeError`; a
well-formed config decodes. -/
theorem decode_error_discrimination_witness :
    to_python_value (some ⟨some ⟨some [("other", PValue.strV "x")]⟩⟩)
      = .error (.valueError malformedMessage) ∧
    to_python_value (some ⟨some ⟨some [("config", PValue.structV
        [("bucket", PValue.strV "b")])]⟩⟩)
      = .error (.typeError "__init__() got an unexpected keyword argument bucket") ∧
    to_python_value (some ⟨some ⟨some (FeatureStore.to_dict fsExample)⟩⟩)
      = .ok fsExample := by
  refine ⟨?_, ?_, ?_⟩
  · exact decode_error_discrimination.2.2.2.2.1 [("other", PValue.strV "x")] rfl
  · exact (decode_error_discrimination.2.2.2.2.2 [("config", PValue.structV
      [("bucket", PValue.strV "b")])] [("bucket", PValue.strV "b")] rfl).trans rfl
  · exact (decode_error_discrimination.2.2.2.2.2 (FeatureStore.to_dict fsExample)
      (FeatureStoreConfig.to_dict fsExample.config) rfl).trans rfl

/-- C7: `to_literal` fails with the boundary `AssertionError` (the
`InvalidValueError` of the spec) exactly when the supplied value is not an
instance of `FeatureStore`; for every instance it never raises that error. -/
theorem to_literal_instance_check (v : PyVal) :
    isAssertionFailure (to_literal v) = !(v.isFeatureStoreInstance) := by
  cases v <;> rfl

/-- C8: registering a codec under an already-registered type identifier fails
with `DuplicateTypeError`; looking up an unregistered identifier fails with
`UnknownTypeError`; a successful registration makes the codec retrievable by
its declared type. -/
theorem registry_register_lookup (r : Registry) (c : Codec) :
    ((r.entries.lookup c.type_id).isSome = true →
      r.register c = .error .duplicateTypeError) ∧
    (r.entries.lookup c.type_id = none →
      r.register c = .ok ⟨(c.type_id, c) :: r.entries⟩ ∧
      (Registry.mk ((c.type_id, c) :: r.entries)).lookupCodec c.type_id = .ok c) ∧
    (∀ type_id, r.entries.lookup type_id = none →
      r.lookupCodec type_id = .error .unknownTypeError) := by
  refine ⟨fun h => ?_, fun h => ⟨?_, ?_⟩, fun tid h => ?_⟩
  · simp [Registry.register, h]
  · simp [Registry.register, h]
  · simp [Registry.lookupCodec, List.lookup]
  · simp [Registry.lookupCodec, h]

/-- The codec registered by the module:
`TypeEngine.register(FeatureStoreTransformer())`, declaring type
`FeatureStore`. -/
def codecExample : Codec := ⟨"FeatureStore", "FeatureStoreTransformer"⟩

/-- Witness for C8: on a concrete registry, registration succeeds and makes
the codec retrievable, duplicate registration fails, and lookup of an
unregistered identifier fails. -/
theorem registry_register_lookup_witness :
    Registry.register ⟨[]⟩ codecExample = .ok ⟨[("FeatureStore", codecExample)]⟩ ∧
    Registry.lookupCodec ⟨[("FeatureStore", codecExample)]⟩ "FeatureStore"
      = .ok codecExample ∧
    Registry.register ⟨[("FeatureStore", codecExample)]⟩ codecExample
      = .error .duplicateTypeError ∧
    Registry.lookupCodec ⟨[]⟩ "FeatureStore" = .error .unknownTypeError := by
  refine ⟨?_, ?_, ?_, ?_⟩
  · exact ((registry_register_lookup ⟨[]⟩ codecExample).2.1 rfl).1
  · exact ((registry_register_lookup ⟨[]⟩ codecExample).2.1 rfl).2
  · exact (registry_register_lookup ⟨[("FeatureStore", codecExample)]⟩
      codecExample).1 rfl
  · exact (registry_register_lookup ⟨[]⟩ codecExample).2.2 "FeatureStore" rfl

/-- C9: a `TransferError` during `apply`, `materialize`, or
`get_online_features` propagates to the caller and no subsequent step of the
operation runs (the body aborts rather than proceeding with a stale local
online-store file); when nothing fails, `materialize` executes the download,
then the materialize call, then the upload, in that strict order. -/
theorem transfer_failure_aborts (s3_bucket online_store_path : String)
    (fails : Step → Bool) :
    (fails (.download (remoteUri s3_bucket online_store_path) online_store_path) = true →
      runSteps fails (materializeSteps s3_bucket online_store_path) = ([], false) ∧
      runSteps fails (getOnlineFeaturesSteps s3_bucket online_store_path) = ([], false)) ∧
    (fails (.download (remoteUri s3_bucket online_store_path) online_store_path) = false →
     fails .feastMaterialize = false →
     fails (.upload online_store_path (remoteUri s3_bucket online_store_path)) = true →
      runSteps fails (materializeSteps s3_bucket online_store_path)
        = ([.download (remoteUri s3_bucket online_store_path) online_store_path,
            .feastMaterialize], false)) ∧
    (fails .feastApply = false →
     fails (.upload online_store_path (remoteUri s3_bucket online_store_path)) = true →
      runSteps fails (applySteps s3_bucket online_store_path) = ([.feastApply], false)) ∧
    ((∀ s, fails s = false) →
      runSteps fails (materializeSteps s3_bucket online_store_path)
        = ([.download (remoteUri s3_bucket online_store_path) online_store_path,
            .feastMaterialize,
            .upload online_store_path (remoteUri s3_bucket online_store_path)], true)) := by
  refine ⟨fun h1 => ⟨?_, ?_⟩, fun h1 h2 h3 => ?_, fun h1 h2 => ?_, fun hall => ?_⟩
  · simp [runSteps, materializeSteps, h1]
  · simp [runSteps, getOnlineFeaturesSteps, h1]
  · simp [runSteps, materializeSteps, h1, h2, h3]
  · simp [runSteps, applySteps, h1, h2]
  · simp [runSteps, materializeSteps, hall]

/-- Witness for C9: with an oracle failing every transfer, `materialize`
completes no step and the error propagates; with no failures, the three steps
run in order. -/
theorem transfer_failure_aborts_witness :
    runSteps (fun s => s.isTransfer) (materializeSteps "my-s3-bucket" "online.db")
      = ([], false) ∧
    runSteps (fun _ => false) (materializeSteps "my-s3-bucket" "online.db")
      = ([.download (remoteUri "my-s3-bucket" "online.db") "online.db",
          .feastMaterialize,
          .upload "online.db" (remoteUri "my-s3-bucket" "online.db")], true) :=
  ⟨((transfer_failure_aborts "my-s3-bucket" "online.db" (fun s => s.isTransfer)).1 rfl).1,
   (transfer_failure_aborts "my-s3-bucket" "online.db" (fun _ => false)).2.2.2
     (fun _ => rfl)⟩

end Flytesnacks
